import Mathlib

/-!
Verification development for the DeviceCheck plugin (device-liveness
monitor) of the MoviePilot-Plugins repository.  The Python code in
plugins.v2/devicecheck/__init__.py is shallowly embedded below:
pure fragments become Lean functions, the stateful monitor loop becomes
explicit state passing producing a trace of observable actions, and
exception-raising steps of the probe helpers are modelled with an
explicit outcome type so that the try/except structure of the source is
visible in the embedding.
-/

/-- A Python value as it appears in a device dict's port field: absent
(or None), an integer, or a string. -/
inductive PyVal where
  | pynone
  | pyint (n : Int)
  | pystr (s : String)
deriving DecidableEq, Repr

/-- Python truthiness of a port value: None is falsy, an integer is
truthy iff nonzero, a string is truthy iff nonempty. -/
def pyTruthy : PyVal → Bool
  | PyVal.pynone => false
  | PyVal.pyint n => n != 0
  | PyVal.pystr s => s != ""

/-- Python str() of a port value, as used by f-string interpolation. -/
def pyToString : PyVal → String
  | PyVal.pynone => "None"
  | PyVal.pyint n => toString n
  | PyVal.pystr s => s

/-- Python str.strip(): drop whitespace from both ends, implemented
over the character list so that it computes by structural recursion. -/
def pyStrip (s : String) : String :=
  String.mk
    (((s.data.dropWhile Char.isWhitespace).reverse.dropWhile
        Char.isWhitespace).reverse)

/-- Python str.split(sep) for a one-character separator: the auxiliary
walk carrying the current field in reverse. -/
def pySplitAux (sep : Char) : List Char → List Char → List String
  | [], acc => [String.mk acc.reverse]
  | c :: cs, acc =>
    if c = sep then String.mk acc.reverse :: pySplitAux sep cs []
    else pySplitAux sep cs (c :: acc)

/-- Python str.split(sep) for a one-character separator. -/
def pySplit (s : String) (sep : Char) : List String :=
  pySplitAux sep s.data []

/-- Python str.startswith for a one-character marker. -/
def pyStartsWith (s : String) (c : Char) : Bool :=
  match s.data with
  | [] => false
  | c0 :: _ => c0 = c

/-- Accumulate the decimal value of a digit list; none if a non-digit
occurs. -/
def digitsVal (cs : List Char) : Option Nat :=
  cs.foldl
    (fun acc c =>
      match acc with
      | none => none
      | some n => if c.isDigit then some (n * 10 + (c.toNat - 48)) else none)
    (some 0)

/-- Python int() applied to a string: surrounding whitespace stripped,
optional sign, then a nonempty run of decimal digits; anything else
raises ValueError. -/
def pyIntOfString (s : String) : Except String Int :=
  let cs := (pyStrip s).data
  let signed : Int × List Char :=
    match cs with
    | '+' :: rest => (1, rest)
    | '-' :: rest => (-1, rest)
    | _ => (1, cs)
  match signed.2 with
  | [] => Except.error "ValueError"
  | ds =>
    match digitsVal ds with
    | some n => Except.ok (signed.1 * n)
    | none => Except.error "ValueError"

/-- Python int() applied to a port value: int passes through, a string
is parsed, None raises TypeError. -/
def pyInt : PyVal → Except String Int
  | PyVal.pynone => Except.error "TypeError"
  | PyVal.pyint n => Except.ok n
  | PyVal.pystr s => pyIntOfString s

/-- A configured device: name, ip address and optional port.  A missing
or empty name/ip is modelled by the empty string (both are falsy in the
source's checks). -/
structure Device where
  name : String
  ip : String
  port : PyVal
deriving DecidableEq, Repr

/-- A cached status entry: the status string ("online"/"offline") and
the last-check timestamp. -/
structure Entry where
  status : String
  last_check : Nat
deriving DecidableEq, Repr

/-- The device-status cache, a Python dict from key strings to entries,
modelled as an association list where insertion conses (the most recent
binding for a key wins on lookup). -/
abbrev Cache := List (String × Entry)

/-- Dictionary lookup: the most recent binding for the key, if any. -/
def cacheGet : Cache → String → Option Entry
  | [], _ => none
  | (k, e) :: rest, key => if k = key then some e else cacheGet rest key

/-- Dictionary write: bind the key to a new entry. -/
def cacheSet (c : Cache) (k : String) (e : Entry) : Cache := (k, e) :: c

/-- The outcome of one Python step that may raise: a returned value, or
a raised exception carrying a message. -/
inductive PyResult (A : Type) where
  | ok (a : A)
  | exc (m : String)
deriving DecidableEq, Repr

/-- Environment of one call of the ping probe helper: the platform
flag queried by is_windows, the configured timeout in seconds, and the
behaviour of subprocess.run on a given command (a return code, or a
raised exception such as TimeoutExpired). -/
structure PingEnv where
  windows : Bool
  timeout : Nat
  runOutcome : List String → PyResult Int

/-- The try-block body of the check_ping helper: build the ping command
and run it, yielding the return code or propagating the exception. -/
def check_ping_body (env : PingEnv) (ip : String) : Except String Int :=
  let param := if env.windows then "-n" else "-c"
  let command := ["ping", param, "1", "-w", toString (env.timeout * 1000), ip]
  match env.runOutcome command with
  | PyResult.ok rc => Except.ok rc
  | PyResult.exc m => Except.error m

/-- The check_ping helper as its caller observes it: the try-block
result compared against zero, with any exception caught and turned into
False. -/
def check_ping (env : PingEnv) (ip : String) : Except String Bool :=
  match check_ping_body env ip with
  | Except.ok rc => Except.ok (rc == 0)
  | Except.error _ => Except.ok false

/-- Environment of one call of the port probe helper: the configured
timeout and the behaviour of each socket operation of the body —
socket creation, settimeout, and connect_ex (which returns an error
code for connection failures but may itself raise, e.g. gaierror on
name resolution). -/
structure PortEnv where
  timeout : Nat
  socketCreate : PyResult Unit
  setTimeout : PyResult Unit
  connectEx : String → Int → PyResult Int

/-- The try-block body of the check_port helper, instrumented with a
flag recording whether sock.close() was reached: create the socket, set
its timeout, call connect_ex, close the socket, and compare the code
against zero.  An exception at any step propagates out of the body with
every later step — including the close — skipped. -/
def check_port_body (env : PortEnv) (ip : String) (port : Int) :
    Except String Bool × Bool :=
  match env.socketCreate with
  | PyResult.exc m => (Except.error m, false)
  | PyResult.ok _ =>
    match env.setTimeout with
    | PyResult.exc m => (Except.error m, false)
    | PyResult.ok _ =>
      match env.connectEx ip port with
      | PyResult.exc m => (Except.error m, false)
      | PyResult.ok code => (Except.ok (code == 0), true)

/-- The check_port helper as its caller observes it, paired with the
socket-closed flag: the try-block result, with any exception caught and
turned into False. -/
def check_port (env : PortEnv) (ip : String) (port : Int) :
    Except String Bool × Bool :=
  match check_port_body env ip port with
  | (Except.ok b, closed) => (Except.ok b, closed)
  | (Except.error _, closed) => (Except.ok false, closed)

/-- The probing method chosen for one device by the monitor body. -/
inductive ProbeChoice where
  | portProbe (p : Int)
  | pingProbe
deriving DecidableEq, Repr

/-- Probe-method selection of the monitor body: a truthy port is
converted with int() and probed over TCP; a ValueError or TypeError
from the conversion falls back to the ping probe; a falsy or absent
port goes to the ping probe directly. -/
def chooseProbe (port : PyVal) : ProbeChoice :=
  if pyTruthy port then
    match pyInt port with
    | Except.ok n => ProbeChoice.portProbe n
    | Except.error _ => ProbeChoice.pingProbe
  else ProbeChoice.pingProbe

/-- Environment of the monitor loop: the boolean liveness result each
probe would deliver for a given target (the probe helpers never raise,
so a boolean is all the loop observes). -/
structure Env where
  portResult : String → Int → Bool
  pingResult : String → Bool

/-- The liveness boolean the monitor computes for one device. -/
def probeDevice (env : Env) (d : Device) : Bool :=
  match chooseProbe d.port with
  | ProbeChoice.portProbe p => env.portResult d.ip p
  | ProbeChoice.pingProbe => env.pingResult d.ip

/-- The status string the monitor computes for one device. -/
def curStatus (env : Env) (d : Device) : String :=
  if probeDevice env d then "online" else "offline"

/-- The cache key built by the monitor body: the ip, a colon, and the
port (via str()) when the port is truthy, else the empty string. -/
def monKey (d : Device) : String :=
  d.ip ++ ":" ++ (if pyTruthy d.port then pyToString d.port else "")

/-- Observable actions of the monitor loop, tagged with the position of
the acting device in the configured list: probing a target, writing the
status cache, and emitting a device_online/device_offline
notification. -/
inductive Act where
  | probe (idx : Nat) (method : ProbeChoice) (ip : String)
  | cacheWrite (idx : Nat) (key : String) (e : Entry)
  | notify (idx : Nat) (name ip : String) (port : PyVal) (status : String)
deriving DecidableEq, Repr

/-- The device position an action is tagged with. -/
def Act.idx : Act → Nat
  | Act.probe i _ _ => i
  | Act.cacheWrite i _ _ => i
  | Act.notify i _ _ _ _ => i

/-- Whether an action is a notification emission. -/
def isNotify : Act → Bool
  | Act.notify _ _ _ _ _ => true
  | _ => false

/-- One iteration of the monitor loop over one device: skip a falsy ip;
otherwise probe, read the previous status, write the cache
unconditionally, and notify when the previous status is falsy (absent)
or differs from the current one.  Returns the new cache and the trace
of actions. -/
def stepDevice (env : Env) (now : Nat) (idx : Nat) (d : Device)
    (cache : Cache) : Cache × List Act :=
  if d.ip = "" then (cache, [])
  else
    let key := monKey d
    let lastStatus : Option String := (cacheGet cache key).map Entry.status
    let current := curStatus env d
    let cache2 := cacheSet cache key ⟨current, now⟩
    let notif : List Act :=
      match lastStatus with
      | some s =>
        if s ≠ "" then
          if s ≠ current then [Act.notify idx d.name d.ip d.port current]
          else []
        else [Act.notify idx d.name d.ip d.port current]
      | none => [Act.notify idx d.name d.ip d.port current]
    (cache2,
      Act.probe idx (chooseProbe d.port) d.ip ::
      Act.cacheWrite idx key ⟨current, now⟩ :: notif)

/-- The for-loop of one monitor cycle, from a given device position:
poll the stop event before each device and break when it is set,
otherwise run the device step and continue. -/
def runCycleFrom (env : Env) (stop : Nat → Bool) (now : Nat → Nat) :
    List Device → Nat → Cache → Cache × List Act
  | [], _, c => (c, [])
  | d :: rest, idx, c =>
    if stop idx then (c, [])
    else
      let r := stepDevice env (now idx) idx d c
      let r2 := runCycleFrom env stop now rest (idx + 1) r.1
      (r2.1, r.2 ++ r2.2)

/-- One monitor cycle over the configured device list. -/
def runCycle (env : Env) (stop : Nat → Bool) (now : Nat → Nat)
    (devs : List Device) (c : Cache) : Cache × List Act :=
  runCycleFrom env stop now devs 0 c

/-- The monitor worker thread handle: an identity and the liveness the
is_alive query reports. -/
structure Thread where
  id : Nat
  alive : Bool
deriving DecidableEq, Repr

/-- The plugin instance state: configuration fields, the worker thread
handle, the status cache and the stop event. -/
structure PluginState where
  enabled : Bool
  devices : List Device
  check_interval : Nat
  timeout : Nat
  monitorThread : Option Thread
  deviceStatus : Cache
  stopEvent : Bool
deriving DecidableEq, Repr

/-- A configuration dict as handed to init_plugin. -/
structure Config where
  enabled : Bool
  devices : List Device
  check_interval : Nat
  timeout : Nat
deriving DecidableEq, Repr

/-- Log lines the lifecycle code emits, reduced to their identity. -/
inductive LogMsg where
  | warnAlreadyRunning
  | infoStarted (n : Nat)
  | infoNotEnabled
deriving DecidableEq, Repr

/-- The init_plugin lifecycle hook: clear the stop event; when a config
is given, take its fields, keep only devices with a truthy name and ip,
and when enabled with a nonempty device list start the worker thread —
unless a live thread already exists, in which case only a warning is
logged.  The fresh thread created on the spawn path is identified by
freshId. -/
def init_plugin (st : PluginState) (freshId : Nat) (cfg : Option Config) :
    PluginState × List LogMsg :=
  let st0 := { st with stopEvent := false }
  match cfg with
  | none => (st0, [])
  | some c =>
    let devs := c.devices.filter (fun d => d.name ≠ "" && d.ip ≠ "")
    let st1 := { st0 with
      enabled := c.enabled, devices := devs,
      check_interval := c.check_interval, timeout := c.timeout }
    if c.enabled && !devs.isEmpty then
      match st1.monitorThread with
      | some t =>
        if t.alive then (st1, [LogMsg.warnAlreadyRunning])
        else
          ({ st1 with monitorThread := some ⟨freshId, true⟩ },
            [LogMsg.infoStarted devs.length])
      | none =>
        ({ st1 with monitorThread := some ⟨freshId, true⟩ },
          [LogMsg.infoStarted devs.length])
    else (st1, [LogMsg.infoNotEnabled])

/-- The stop_service lifecycle hook: set the stop event and join the
worker with a bounded wait; no other field is touched. -/
def stop_service (st : PluginState) : PluginState :=
  { st with stopEvent := true }

/-- One row of the inspection snapshot built by get_page. -/
structure PageRow where
  name : String
  ip : String
  port : String
  check_method : String
  status : String
  last_check : Nat
deriving DecidableEq, Repr

/-- The cache key built by get_page: the ip, a colon, and
device.get of port with default empty string rendered by the f-string
(an absent port renders as the empty string; a present one via
str()). -/
def pageKey (d : Device) : String :=
  d.ip ++ ":" ++ (match d.port with
    | PyVal.pynone => ""
    | v => pyToString v)

/-- The get_page inspection snapshot: one row per configured device,
with the cached status ("unknown" and timestamp 0 when the key has no
entry), the display port ("-" for a falsy port), and the probing method
label chosen by the truthiness of the configured port. -/
def get_page (st : PluginState) : List PageRow :=
  st.devices.map (fun d =>
    let info := cacheGet st.deviceStatus (pageKey d)
    { name := d.name
      ip := d.ip
      port := if pyTruthy d.port then pyToString d.port else "-"
      check_method := if pyTruthy d.port then "端口检测" else "Ping检测"
      status := (info.map Entry.status).getD "unknown"
      last_check := (info.map Entry.last_check).getD 0 })

/-- Modelled from the spec: the repository source under src/ only ever
receives the device list pre-structured, so the delimited-text device
parser the spec describes ("name#address#port, port optional; skip
blank lines and lines beginning with a comment marker; tolerate a
non-integer port by dropping the port field rather than rejecting the
line") is absent from src/ and is modelled here from the spec's words.
This function handles the fields of one already-split line. -/
def parseParts : List String → Option Device
  | [name, addr] => some ⟨pyStrip name, pyStrip addr, PyVal.pynone⟩
  | name :: addr :: port :: _ =>
    match pyIntOfString (pyStrip port) with
    | Except.ok n => some ⟨pyStrip name, pyStrip addr, PyVal.pyint n⟩
    | Except.error _ => some ⟨pyStrip name, pyStrip addr, PyVal.pynone⟩
  | _ => none

/-- Modelled from the spec: one line of delimited device text — blank
lines and lines beginning with the comment marker are skipped, other
lines are split on the delimiter and handed to parseParts. -/
def parseDeviceLine (line : String) : Option Device :=
  let l := pyStrip line
  if l = "" then none
  else if pyStartsWith l '#' then none
  else parseParts (pySplit l '#')

/-- Modelled from the spec: the whole delimited device text, line by
line. -/
def parse_device_lines (text : String) : List Device :=
  (pySplit text '\n').filterMap parseDeviceLine

/-- Every action of one device step carries that device's position. -/
theorem stepDevice_act_idx (env : Env) (now idx : Nat) (d : Device)
    (cache : Cache) :
    ∀ a ∈ (stepDevice env now idx d cache).2, Act.idx a = idx := by
  intro a ha
  unfold stepDevice at ha
  by_cases hip : d.ip = ""
  · simp [hip] at ha
  · rw [if_neg hip] at ha
    simp only [List.mem_cons] at ha
    rcases ha with rfl | rfl | ha
    · rfl
    · rfl
    · have hnot : a = Act.notify idx d.name d.ip d.port (curStatus env d) := by
        split at ha
        · split at ha
          · split at ha
            · simpa using ha
            · simp at ha
          · simpa using ha
        · simpa using ha
      rw [hnot]
      rfl

/-- A device step never removes a cache key. -/
theorem stepDevice_preserves_keys (env : Env) (now idx : Nat) (d : Device)
    (cache : Cache) (k : String) (h : cacheGet cache k ≠ none) :
    cacheGet (stepDevice env now idx d cache).1 k ≠ none := by
  unfold stepDevice
  by_cases hip : d.ip = ""
  · simpa [hip] using h
  · rw [if_neg hip]
    simp only [cacheSet, cacheGet]
    split <;> simp [h]

/-- The status string the monitor writes is never empty. -/
theorem curStatus_ne_empty (env : Env) (d : Device) : curStatus env d ≠ "" := by
  unfold curStatus
  split <;> simp

/-- Claim C1: for every device processed in a probe cycle, the monitor
emits a notification if and only if no cached status exists for the
device's key before the probe, or the newly computed status differs
from the previously cached one; an unchanged status emits nothing.
Stated as an exact notification count over the step's action trace, for
any cache whose stored statuses are nonempty strings (the only statuses
the loop ever writes). -/
theorem C1_notify_iff_first_or_change (env : Env) (now idx : Nat)
    (d : Device) (cache : Cache) (hip : d.ip ≠ "")
    (hwf : ∀ e, cacheGet cache (monKey d) = some e → e.status ≠ "") :
    ((stepDevice env now idx d cache).2.countP isNotify) =
      (match cacheGet cache (monKey d) with
       | none => 1
       | some e => if e.status = curStatus env d then 0 else 1) := by
  unfold stepDevice
  rw [if_neg hip]
  cases hcg : cacheGet cache (monKey d) with
  | none => simp [hcg, List.countP_cons, List.countP_nil, isNotify]
  | some e =>
    have hne := hwf e hcg
    by_cases hst : e.status = curStatus env d
    · simp [hcg, hne, hst, List.countP_cons, List.countP_nil, isNotify,
        curStatus_ne_empty env d]
    · simp [hcg, hne, hst, List.countP_cons, List.countP_nil, isNotify]

/-- Witness for C1 at a concrete first observation: a just-started
monitor with an empty cache notifies on the first probe of a device. -/
theorem C1_notify_iff_first_or_change_witness :
    ((stepDevice ⟨fun _ _ => true, fun _ => true⟩ 5 0
        ⟨"A", "1.2.3.4", PyVal.pyint 445⟩ []).2.countP isNotify) = 1 := by
  have h := C1_notify_iff_first_or_change ⟨fun _ _ => true, fun _ => true⟩
    5 0 ⟨"A", "1.2.3.4", PyVal.pyint 445⟩ [] (by simp)
    (by intro e he; simp [cacheGet] at he)
  simpa [cacheGet] using h

/-- Claim C2: the probe helpers never raise to their caller — every
internal exception of the try-block bodies is caught and yields the
boolean result False (an Offline reading). -/
theorem C2_probe_never_raises (penv : PortEnv) (pip : String) (pport : Int)
    (qenv : PingEnv) (qip : String) :
    (∃ b, (check_port penv pip pport).1 = Except.ok b) ∧
    (∃ b, check_ping qenv qip = Except.ok b) ∧
    (∀ m, (check_port_body penv pip pport).1 = Except.error m →
      (check_port penv pip pport).1 = Except.ok false) ∧
    (∀ m, check_ping_body qenv qip = Except.error m →
      check_ping qenv qip = Except.ok false) := by
  refine ⟨?_, ?_, ?_, ?_⟩
  · unfold check_port
    rcases h : check_port_body penv pip pport with ⟨r, cl⟩
    cases r <;> simp
  · unfold check_ping
    cases h : check_ping_body qenv qip <;> simp
  · intro m hm
    unfold check_port
    rcases h : check_port_body penv pip pport with ⟨r, cl⟩
    rw [h] at hm
    simp only at hm
    subst hm
    simp
  · intro m hm
    unfold check_ping
    rw [hm]

/-- Witness for C2 at concrete raising environments: a raising
connect_ex and a raising subprocess.run both surface as an ordinary
False result. -/
theorem C2_probe_never_raises_witness :
    (check_port ⟨3, PyResult.ok (), PyResult.ok (),
        fun _ _ => PyResult.exc "gaierror"⟩ "nas.local" 445).1 =
      Except.ok false ∧
    check_ping ⟨false, 3, fun _ => PyResult.exc "TimeoutExpired"⟩
        "10.0.0.5" = Except.ok false := by
  constructor
  · exact (C2_probe_never_raises _ "nas.local" 445
      ⟨false, 3, fun _ => PyResult.exc "TimeoutExpired"⟩ "10.0.0.5").2.2.1
      "gaierror" rfl
  · exact (C2_probe_never_raises ⟨3, PyResult.ok (), PyResult.ok (),
      fun _ _ => PyResult.exc "gaierror"⟩ "nas.local" 445 _ "10.0.0.5").2.2.2
      "TimeoutExpired" rfl

/-- Claim C3: a device whose configured port is truthy but does not
convert with int() is probed by ping rather than by TCP connect, and
the device step still completes normally (the cache write happens); a
device with a falsy or absent port is probed by ping directly. -/
theorem C3_port_fallback (env : Env) (now idx : Nat) (d : Device)
    (cache : Cache) (hip : d.ip ≠ "")
    (h : pyTruthy d.port = false ∨ ∃ m, pyInt d.port = Except.error m) :
    chooseProbe d.port = ProbeChoice.pingProbe ∧
    probeDevice env d = env.pingResult d.ip ∧
    (stepDevice env now idx d cache).2.head? =
      some (Act.probe idx ProbeChoice.pingProbe d.ip) ∧
    cacheGet (stepDevice env now idx d cache).1 (monKey d) =
      some ⟨curStatus env d, now⟩ := by
  have hc : chooseProbe d.port = ProbeChoice.pingProbe := by
    unfold chooseProbe
    rcases h with h | ⟨m, hm⟩
    · simp [h]
    · cases ht : pyTruthy d.port <;> simp [ht, hm]
  refine ⟨hc, ?_, ?_, ?_⟩
  · unfold probeDevice
    rw [hc]
  · unfold stepDevice
    rw [if_neg hip, hc]
    rfl
  · unfold stepDevice
    rw [if_neg hip]
    simp [cacheSet, cacheGet]

/-- Witness for C3 at a concrete device with the non-numeric port
"abc": the ping probe is chosen and the step writes the cache. -/
theorem C3_port_fallback_witness :
    chooseProbe (PyVal.pystr "abc") = ProbeChoice.pingProbe ∧
    probeDevice ⟨fun _ _ => true, fun _ => false⟩
      ⟨"A", "1.2.3.4", PyVal.pystr "abc"⟩ = false ∧
    (stepDevice ⟨fun _ _ => true, fun _ => false⟩ 7 0
        ⟨"A", "1.2.3.4", PyVal.pystr "abc"⟩ []).2.head? =
      some (Act.probe 0 ProbeChoice.pingProbe "1.2.3.4") ∧
    cacheGet (stepDevice ⟨fun _ _ => true, fun _ => false⟩ 7 0
        ⟨"A", "1.2.3.4", PyVal.pystr "abc"⟩ []).1 "1.2.3.4:abc" =
      some ⟨"offline", 7⟩ := by
  have h := C3_port_fallback ⟨fun _ _ => true, fun _ => false⟩ 7 0
    ⟨"A", "1.2.3.4", PyVal.pystr "abc"⟩ [] (by simp)
    (Or.inr ⟨"ValueError", rfl⟩)
  simpa [monKey, pyTruthy, pyToString, curStatus, probeDevice,
    chooseProbe, pyInt] using h

/-- Claim C4 states that the socket created by the port probe is closed
before the probe returns regardless of whether the connection attempt
succeeds, fails or raises.  The code violates this on the raising path:
at an environment where socket creation and settimeout succeed but
connect_ex raises (as it does, e.g., when name resolution fails with
gaierror), the probe returns the caught-exception result False with the
socket-closed flag still false — sock.close() sits inside the try block
after connect_ex and is skipped when connect_ex raises.  On the
non-raising paths (connection success or a nonzero failure code) the
socket is closed. -/
theorem C4_socket_not_closed_on_raise :
    (check_port ⟨3, PyResult.ok (), PyResult.ok (),
        fun _ _ => PyResult.exc "gaierror"⟩ "nonexistent.invalid" 445) =
      (Except.ok false, false) ∧
    (check_port ⟨3, PyResult.ok (), PyResult.ok (),
        fun _ _ => PyResult.ok 111⟩ "10.0.0.5" 445) =
      (Except.ok false, true) ∧
    (check_port ⟨3, PyResult.ok (), PyResult.ok (),
        fun _ _ => PyResult.ok 0⟩ "10.0.0.5" 445) =
      (Except.ok true, true) := by
  exact ⟨rfl, rfl, rfl⟩

/-- Claim C5: the device step writes the cache entry for the device's
key unconditionally — with the newly computed status and the current
timestamp — on every probe, and the write appears in the trace before
any notification (the tail after the write holds nothing but
notifications). -/
theorem C5_cache_write_unconditional (env : Env) (now idx : Nat)
    (d : Device) (cache : Cache) (hip : d.ip ≠ "") :
    (∃ tail, (stepDevice env now idx d cache).2 =
        Act.probe idx (chooseProbe d.port) d.ip ::
          Act.cacheWrite idx (monKey d) ⟨curStatus env d, now⟩ :: tail ∧
        ∀ a ∈ tail, isNotify a = true) ∧
    cacheGet (stepDevice env now idx d cache).1 (monKey d) =
      some ⟨curStatus env d, now⟩ := by
  unfold stepDevice
  rw [if_neg hip]
  constructor
  · refine ⟨_, rfl, ?_⟩
    intro a ha
    split at ha
    · split at ha
      · split at ha
        · simp at ha
          rw [ha, isNotify]
        · simp at ha
      · simp at ha
        rw [ha, isNotify]
    · simp at ha
      rw [ha, isNotify]
  · simp [cacheSet, cacheGet]

/-- Witness for C5 at a concrete device and empty cache: the new cache
holds the freshly written online entry with the probe timestamp. -/
theorem C5_cache_write_unconditional_witness :
    cacheGet (stepDevice ⟨fun _ _ => true, fun _ => true⟩ 5 0
        ⟨"A", "1.2.3.4", PyVal.pyint 445⟩ []).1 "1.2.3.4:445" =
      some ⟨"online", 5⟩ := by
  have h := (C5_cache_write_unconditional ⟨fun _ _ => true, fun _ => true⟩
    5 0 ⟨"A", "1.2.3.4", PyVal.pyint 445⟩ [] (by simp)).2
  simpa [monKey, pyTruthy, pyToString, curStatus, probeDevice,
    chooseProbe, pyInt] using h

/-- With a monotone stop signal set at position i, the cycle loop from
any start position only produces actions of devices before position
i. -/
theorem runCycleFrom_stop_bound (env : Env) (stop : Nat → Bool)
    (now : Nat → Nat) (i : Nat)
    (hmono : ∀ a b, a ≤ b → stop a = true → stop b = true)
    (hstop : stop i = true) :
    ∀ devs idx cache, ∀ a ∈ (runCycleFrom env stop now devs idx cache).2,
      Act.idx a < i := by
  intro devs
  induction devs with
  | nil =>
    intro idx cache a ha
    simp [runCycleFrom] at ha
  | cons d rest ih =>
    intro idx cache a ha
    by_cases hs : stop idx = true
    · simp [runCycleFrom, hs] at ha
    · have hidx : idx < i := by
        rcases Nat.lt_or_ge idx i with h | h
        · exact h
        · exact absurd (hmono i idx h hstop) hs
      rw [runCycleFrom] at ha
      rw [if_neg hs] at ha
      simp only [List.mem_append] at ha
      rcases ha with ha | ha
      · have := stepDevice_act_idx env (now idx) idx d cache a ha
        omega
      · exact ih (idx + 1) _ a ha

/-- Claim C6: if the stop signal is set by the time position i of the
cycle's device list is reached (the signal, once set, stays set), then
the devices at positions i and later contribute no action at all to the
cycle — no probe, no cache write, no notification: the worker breaks
out of the cycle instead of completing the remaining devices. -/
theorem C6_stop_aborts_cycle (env : Env) (stop : Nat → Bool)
    (now : Nat → Nat) (devs : List Device) (cache : Cache) (i : Nat)
    (hmono : ∀ a b, a ≤ b → stop a = true → stop b = true)
    (hstop : stop i = true) :
    ∀ a ∈ (runCycle env stop now devs cache).2, Act.idx a < i := by
  exact runCycleFrom_stop_bound env stop now i hmono hstop devs 0 cache

/-- Witness for C6: with the stop signal raised from position 1 on, a
two-device cycle traces actions only for the device at position 0. -/
theorem C6_stop_aborts_cycle_witness :
    ((runCycle ⟨fun _ _ => true, fun _ => true⟩ (fun n => decide (1 ≤ n))
        (fun _ => 0)
        [⟨"A", "1.2.3.4", PyVal.pyint 445⟩, ⟨"B", "1.2.3.5", PyVal.pynone⟩]
        []).2.all (fun a => decide (Act.idx a < 1))) = true := by
  have h := C6_stop_aborts_cycle ⟨fun _ _ => true, fun _ => true⟩
    (fun n => decide (1 ≤ n)) (fun _ => 0)
    [⟨"A", "1.2.3.4", PyVal.pyint 445⟩, ⟨"B", "1.2.3.5", PyVal.pynone⟩]
    [] 1 (by intro a b hab ha; simp at ha ⊢; omega) (by decide)
  rw [List.all_eq_true]
  intro a ha
  simpa using h a ha

/-- Claim C7: calling init_plugin while the monitor worker thread is
alive, with an enabled config whose filtered device list is nonempty,
does not start a second worker — the thread handle and the
device-status cache are unchanged (only configuration fields are
rewritten) and exactly the already-running warning is logged. -/
theorem C7_no_second_worker (st : PluginState) (freshId : Nat)
    (c : Config) (t : Thread)
    (hth : st.monitorThread = some t) (halive : t.alive = true)
    (hen : c.enabled = true)
    (hdev : (c.devices.filter
      (fun d => d.name ≠ "" && d.ip ≠ "")).isEmpty = false) :
    (init_plugin st freshId (some c)).1.monitorThread =
      st.monitorThread ∧
    (init_plugin st freshId (some c)).1.deviceStatus = st.deviceStatus ∧
    (init_plugin st freshId (some c)).2 = [LogMsg.warnAlreadyRunning] := by
  unfold init_plugin
  simp only [hen, hdev, hth, halive, Bool.not_false, Bool.and_self,
    if_true]
  simp

/-- Witness for C7: a live worker, an enabled one-device config — the
handle and the cache survive and the warning is the only log line. -/
theorem C7_no_second_worker_witness :
    (init_plugin ⟨false, [], 60, 3, some ⟨9, true⟩,
        [("10.0.0.9:", ⟨"online", 3⟩)], true⟩ 42
      (some ⟨true, [⟨"A", "1.2.3.4", PyVal.pyint 445⟩], 30, 3⟩)).1.monitorThread
      = some ⟨9, true⟩ ∧
    (init_plugin ⟨false, [], 60, 3, some ⟨9, true⟩,
        [("10.0.0.9:", ⟨"online", 3⟩)], true⟩ 42
      (some ⟨true, [⟨"A", "1.2.3.4", PyVal.pyint 445⟩], 30, 3⟩)).1.deviceStatus
      = [("10.0.0.9:", ⟨"online", 3⟩)] ∧
    (init_plugin ⟨false, [], 60, 3, some ⟨9, true⟩,
        [("10.0.0.9:", ⟨"online", 3⟩)], true⟩ 42
      (some ⟨true, [⟨"A", "1.2.3.4", PyVal.pyint 445⟩], 30, 3⟩)).2
      = [LogMsg.warnAlreadyRunning] := by
  have h := C7_no_second_worker
    ⟨false, [], 60, 3, some ⟨9, true⟩, [("10.0.0.9:", ⟨"online", 3⟩)], true⟩
    42 ⟨true, [⟨"A", "1.2.3.4", PyVal.pyint 445⟩], 30, 3⟩ ⟨9, true⟩
    rfl rfl rfl (by rfl)
  simpa using h

/-- Claim C8 (the delimited-text device parser is modelled from the
spec, since src/ only receives pre-structured device lists): the parser
skips blank lines and lines beginning with the comment marker, and a
line whose port field does not parse as an integer keeps the line with
the port field dropped rather than being rejected. -/
theorem C8_device_line_tolerance :
    (∀ l, pyStrip l = "" → parseDeviceLine l = none) ∧
    (∀ l, pyStartsWith (pyStrip l) '#' = true → parseDeviceLine l = none) ∧
    (∀ name addr port m, pyIntOfString (pyStrip port) = Except.error m →
      parseParts [name, addr, port] =
        some ⟨pyStrip name, pyStrip addr, PyVal.pynone⟩) := by
  refine ⟨?_, ?_, ?_⟩
  · intro l h
    simp [parseDeviceLine, h]
  · intro l h
    by_cases he : pyStrip l = "" <;> simp [parseDeviceLine, he, h]
  · intro name addr port m hm
    simp [parseParts, hm]

/-- Witness for C8: a blank line and a comment line are skipped; the
fields NAS, 10.0.0.5 and the non-numeric port abc keep the device with
the port dropped. -/
theorem C8_device_line_tolerance_witness :
    parseDeviceLine "   " = none ∧
    parseDeviceLine "# comment" = none ∧
    parseParts ["NAS", "10.0.0.5", "abc"] =
      some ⟨"NAS", "10.0.0.5", PyVal.pynone⟩ := by
  refine ⟨C8_device_line_tolerance.1 "   " (by rfl),
    C8_device_line_tolerance.2.1 "# comment" (by rfl), ?_⟩
  have h := C8_device_line_tolerance.2.2 "NAS" "10.0.0.5" "abc"
    "ValueError" (by rfl)
  simpa using h

/-- A whole cycle, from any start position, never removes a cache
key. -/
theorem runCycleFrom_preserves_keys (env : Env) (stop : Nat → Bool)
    (now : Nat → Nat) :
    ∀ devs idx cache k, cacheGet cache k ≠ none →
      cacheGet (runCycleFrom env stop now devs idx cache).1 k ≠ none := by
  intro devs
  induction devs with
  | nil =>
    intro idx cache k h
    simpa [runCycleFrom] using h
  | cons d rest ih =>
    intro idx cache k h
    rw [runCycleFrom]
    by_cases hs : stop idx = true
    · rw [if_pos hs]
      exact h
    · rw [if_neg hs]
      exact ih (idx + 1) _ k
        (stepDevice_preserves_keys env (now idx) idx d cache k h)

/-- Claim C9: no operation of the plugin removes a key from the
device-status cache.  init_plugin never touches the cache at all (so
entries keyed under a previous configuration stay behind), stop_service
never touches it, and a monitor cycle only creates or overwrites
entries. -/
theorem C9_cache_keys_never_removed :
    (∀ st freshId cfg,
      (init_plugin st freshId cfg).1.deviceStatus = st.deviceStatus) ∧
    (∀ st, (stop_service st).deviceStatus = st.deviceStatus) ∧
    (∀ env stop now devs cache k, cacheGet cache k ≠ none →
      cacheGet (runCycle env stop now devs cache).1 k ≠ none) := by
  refine ⟨?_, ?_, ?_⟩
  · intro st freshId cfg
    cases cfg with
    | none => rfl
    | some c =>
      unfold init_plugin
      dsimp only
      split
      · split
        · split <;> rfl
        · rfl
      · rfl
  · intro st
    rfl
  · intro env stop now devs cache k h
    exact runCycleFrom_preserves_keys env stop now devs 0 cache k h

/-- Witness for C9: an entry keyed under a stale key from a previous
configuration survives a full monitor cycle over the new device
list. -/
theorem C9_cache_keys_never_removed_witness :
    cacheGet (runCycle ⟨fun _ _ => true, fun _ => true⟩ (fun _ => false)
        (fun _ => 0) [⟨"A", "1.2.3.4", PyVal.pyint 445⟩]
        [("10.0.0.9:", ⟨"online", 3⟩)]).1 "10.0.0.9:" ≠ none := by
  exact C9_cache_keys_never_removed.2.2 ⟨fun _ _ => true, fun _ => true⟩
    (fun _ => false) (fun _ => 0) [⟨"A", "1.2.3.4", PyVal.pyint 445⟩]
    [("10.0.0.9:", ⟨"online", 3⟩)] "10.0.0.9:" (by simp [cacheGet])

/-- Claim C10: for a configured device whose key has no cache entry,
the inspection snapshot reports the status string unknown and the
last-check timestamp 0, and labels the probing method as the port probe
exactly when the configured port is truthy and as the ping probe
otherwise. -/
theorem C10_page_unknown_device (st : PluginState) (i : Nat) (d : Device)
    (hd : st.devices[i]? = some d)
    (hnc : cacheGet st.deviceStatus (pageKey d) = none) :
    (get_page st)[i]?.map PageRow.status = some "unknown" ∧
    (get_page st)[i]?.map PageRow.last_check = some 0 ∧
    (get_page st)[i]?.map PageRow.check_method =
      some (if pyTruthy d.port then "端口检测" else "Ping检测") := by
  unfold get_page
  rw [List.getElem?_map, hd]
  simp [hnc]

/-- Witness for C10: a one-device state with an empty cache reports
unknown, timestamp 0 and the port-probe label for its truthy port. -/
theorem C10_page_unknown_device_witness :
    (get_page ⟨true, [⟨"A", "1.2.3.4", PyVal.pyint 445⟩], 60, 3, none,
        [], false⟩)[0]?.map PageRow.status = some "unknown" ∧
    (get_page ⟨true, [⟨"A", "1.2.3.4", PyVal.pyint 445⟩], 60, 3, none,
        [], false⟩)[0]?.map PageRow.last_check = some 0 ∧
    (get_page ⟨true, [⟨"A", "1.2.3.4", PyVal.pyint 445⟩], 60, 3, none,
        [], false⟩)[0]?.map PageRow.check_method = some "端口检测" := by
  have h := C10_page_unknown_device
    ⟨true, [⟨"A", "1.2.3.4", PyVal.pyint 445⟩], 60, 3, none, [], false⟩
    0 ⟨"A", "1.2.3.4", PyVal.pyint 445⟩ rfl (by rfl)
  simpa [pyTruthy] using h
